import Mathlib

/-!
Shallow embedding of `src/file_convert/fastPNG.py` (the Batch Raster
Pipeline): `read_filenames`, `check_pdf`, `check_disk_space`,
`convert_pdf`, `log_error`, `batch_check_pdfs`, `batch_convert`.

Modelling decisions:
- A filesystem path is a list of components (`Path`); `os.path.join d f`
  appends a component, `os.path.dirname` drops the last one, and a path
  renders to the usual slash-separated string for error messages.
- The filesystem is the finite list of existing file paths (`FS`);
  `os.path.exists` is membership.
- The external library call `pdf2image.convert_from_path` is an oracle
  (a field of `Env` / `CheckEnv`): given a path and a dpi it either
  returns a page count or raises one of the two exception classes the
  Python code distinguishes (`PDFPageCountError` vs any other
  `Exception`).  `image.save` is likewise an oracle keyed on the target
  path: `none` means success, `some e` means an exception with message
  `e` was raised at that save.
- Side effects (file writes, log appends, log-file creation, prints)
  are reified as an ordered `List Effect` returned by each function;
  `print` is not a filesystem mutation.
- Timestamps and elapsed-time renderings are environment fields
  (`nowFile` in `%Y-%m-%d_%H-%M-%S` form for log-file names, `nowMsg`
  in `%Y-%m-%d %H:%M:%S` form for log lines, `elapsed` for timing
  prints), since the model has no real clock.
- Python string operations used by the script (`str.strip`,
  `str.startswith`, `str.endswith`, lexicographic order for `sorted`)
  are implemented over the character list of a `String`.
- The worker pool: `pool.map` / `pool.imap_unordered` fan work out over
  processes; each worker here is evaluated against the filesystem as it
  was at dispatch time, and results are listed in input order
  (`imap_unordered` returns them in nondeterministic completion order;
  no property below depends on the order).
-/

namespace FastPNG

/-- A filesystem path, as a list of components. -/
abbrev Path := List String

/-- Embeds `os.path.join dir name` for a single component. -/
def joinPath (d : Path) (name : String) : Path := d ++ [name]

/-- Embeds `os.path.dirname`. -/
def dirname (p : Path) : Path := p.dropLast

/-- Renders a path the way Python interpolates it into messages. -/
def renderPath (p : Path) : String := String.intercalate "/" p

/-- The filesystem: the list of file paths that exist. -/
abbrev FS := List Path

/-- Embeds `os.path.exists`. -/
def pathExists (fs : FS) (p : Path) : Bool := fs.contains p

/-- Whitespace for Python `str.strip` (ASCII whitespace suffices here). -/
def isSpaceChar (c : Char) : Bool :=
  c == ' ' || c == '\t' || c == '\n' || c == '\r' || c == '\x0b' || c == '\x0c'

/-- Embeds Python `str.strip()`. -/
def pyStrip (s : String) : String :=
  String.mk (((s.data.dropWhile isSpaceChar).reverse.dropWhile isSpaceChar).reverse)

/-- Character-list version of `str.startswith`. -/
def startsChars : List Char → List Char → Bool
  | _, [] => true
  | [], _ :: _ => false
  | c :: cs, p :: ps => c == p && startsChars cs ps

/-- Embeds Python `str.startswith`. -/
def pyStartsWith (s pre : String) : Bool := startsChars s.data pre.data

/-- Embeds Python `str.endswith`. -/
def pyEndsWith (s suf : String) : Bool := startsChars s.data.reverse suf.data.reverse

/-- Lexicographic order on character lists, for Python `sorted`. -/
def lexLe : List Char → List Char → Bool
  | [], _ => true
  | _ :: _, [] => false
  | a :: as, b :: bs => if a == b then lexLe as bs else decide (a < b)

/-- Insertion into a sorted list. -/
def insertSorted (le : α → α → Bool) (a : α) : List α → List α
  | [] => [a]
  | b :: bs => if le a b then a :: b :: bs else b :: insertSorted le a bs

/-- Insertion sort; models Python `sorted` for the total order used here. -/
def sortBy (le : α → α → Bool) : List α → List α
  | [] => []
  | a :: as => insertSorted le a (sortBy le as)

/-- The two exception shapes the script distinguishes when calling
`pdf2image`: `PDFPageCountError`, and any other `Exception`. -/
inductive PdfException where
  | pageCount (msg : String)
  | other (msg : String)
deriving DecidableEq

/-- Message carried by an exception (Python `str(e)`). -/
def PdfException.msg : PdfException → String
  | .pageCount m => m
  | .other m => m

/-- One observable side effect of the script. -/
inductive Effect where
  /-- `image.save(target, "PNG")` succeeded at `target`. -/
  | saveImage (target : Path)
  /-- A line appended to a log file (opened in mode `"a"`). -/
  | appendLog (file : String) (line : String)
  /-- A file created/truncated by `open(file, "w")`. -/
  | createFile (file : String)
  /-- A `print(...)` call; not a filesystem mutation. -/
  | printed (s : String)
deriving DecidableEq

/-- Whether an effect mutates the filesystem. -/
def Effect.isWrite : Effect → Bool
  | .printed _ => false
  | _ => true

/-- Whether an effect is an image-file write. -/
def Effect.isSave : Effect → Bool
  | .saveImage _ => true
  | _ => false

/-- Whether an effect creates/truncates a file via `open(_, "w")`. -/
def Effect.isCreate : Effect → Bool
  | .createFile _ => true
  | _ => false

/-- Result of `shutil.disk_usage` for one queried path. -/
structure DiskUsage where
  total : Nat
  used : Nat
  free : Nat
deriving DecidableEq

/-- The work item passed to `convert_pdf`: the `pdf_info` triple
`(pdf_path, filenames, dpi)`. -/
structure PdfInfo where
  pdf_path : Path
  filenames : List String
  dpi : Nat
deriving DecidableEq

/-- Environment of the convert pipeline: the `pdf2image` parse oracle
(path, dpi ↦ page count or exception), the `image.save` oracle (target
path ↦ optional exception message), and clock renderings. -/
structure Env where
  parse : Path → Nat → Except PdfException Nat
  save : Path → Option String
  nowFile : String
  nowMsg : String
  elapsed : String

/-- Environment of the check pipeline: the parse oracle and clock
renderings (the check pipeline never saves images). -/
structure CheckEnv where
  parse : Path → Nat → Except PdfException Nat
  nowFile : String
  nowMsg : String
  elapsed : String

/-- One entry of `os.listdir(parent_dir)` together with the metadata the
script queries about it: whether it is a directory, and (when it is) its
own directory listing. -/
structure DirEntry where
  name : String
  isDir : Bool
  contents : List String
deriving DecidableEq

/-- Embeds `read_filenames`: strip every line, keep the non-blank ones
(`[line.strip() for line in file if line.strip()]`). -/
def read_filenames (lines : List String) : List String :=
  (lines.map pyStrip).filter (fun s => s != "")

/-- Embeds `check_pdf`: parse at dpi 10; `None` on success, otherwise the
exception is converted to a descriptive error string. -/
def check_pdf (parse : Path → Nat → Except PdfException Nat) (pdf_path : Path) :
    Option String :=
  match parse pdf_path 10 with
  | .ok _ => none
  | .error (.pageCount e) =>
      some ("ERROR: Unable to process " ++ renderPath pdf_path ++
        ". PDF might be corrupted. Skipping.\n" ++ e ++ "\n")
  | .error (.other e) =>
      some ("ERROR: Unexpected failure while processing " ++ renderPath pdf_path ++
        ". Skipping.\n" ++ e ++ "\n")

/-- Embeds `check_disk_space`: query `shutil.disk_usage("/")` and compare
`free / 1024**3 < required_gb`; division by `2^30` is exact, so the float
comparison coincides with `free < required_gb * 1024^3` over the integers.
Returns `true` when enough space is free. -/
def check_disk_space (disk_usage : String → DiskUsage) (required_gb : Nat) : Bool :=
  decide (required_gb * 1024 ^ 3 ≤ (disk_usage "/").free)

/-- Embeds `log_error`: when no log file is given, derive a timestamped
name; print the timestamped line and append it to the file. -/
def log_error (nowFile nowMsg : String) (message : String)
    (log_file : Option String) : List Effect :=
  let file := match log_file with
    | none => "error_log_" ++ nowFile ++ ".txt"
    | some f => f
  let full := "[" ++ nowMsg ++ "] " ++ message ++ "\n"
  [Effect.printed full, Effect.appendLog file full]

/-- The output filename for page index `i` (0-based): the `i`-th supplied
filename when the list is long enough, else `default_page_<i+1>.png`. -/
def outputName (filenames : List String) (i : Nat) : String :=
  if i < filenames.length then filenames.getD i ""
  else "default_page_" ++ toString (i + 1) ++ ".png"

/-- Embeds the `for i, image in enumerate(images): image.save(...)` loop
over the given page indices: saves in order until a save raises, returning
the effects of the successful saves and the raised message, if any. -/
def saveLoop (save : Path → Option String) (pdf_dir : Path)
    (filenames : List String) : List Nat → List Effect × Option String
  | [] => ([], none)
  | i :: rest =>
    let target := joinPath pdf_dir (outputName filenames i)
    match save target with
    | none =>
      let r := saveLoop save pdf_dir filenames rest
      (Effect.saveImage target :: r.1, r.2)
    | some e => ([], some e)

/-- Per-document outcome of the rasterization worker, read off from which
branch of `convert_pdf` ran (the Python function communicates this via
prints and log lines). -/
inductive Outcome where
  | skipped
  | success
  | failure (reason : String)
deriving DecidableEq

/-- Embeds `convert_pdf`: skip when every listed filename already exists
in the document's directory; otherwise parse, save each page under its
positional or default name, and convert any raised exception into a
logged failure. -/
def convert_pdf (env : Env) (fs : FS) (info : PdfInfo) : List Effect × Outcome :=
  let pdf_dir := dirname info.pdf_path
  let all_pngs_exist := info.filenames.all (fun name => pathExists fs (joinPath pdf_dir name))
  if all_pngs_exist then
    ([Effect.printed ("⏩ Skipping already processed PDF: " ++ renderPath info.pdf_path)],
     Outcome.skipped)
  else
    match env.parse info.pdf_path info.dpi with
    | .ok n =>
      let r := saveLoop env.save pdf_dir info.filenames (List.range n)
      match r.2 with
      | none =>
        (r.1 ++ [Effect.printed ("✅ Processed " ++ renderPath info.pdf_path ++
          " in " ++ env.elapsed ++ " sec")], Outcome.success)
      | some e =>
        let msg := "ERROR: Unexpected failure in " ++ renderPath info.pdf_path ++ ": " ++ e
        (r.1 ++ log_error env.nowFile env.nowMsg msg none, Outcome.failure msg)
    | .error (.pageCount _) =>
      let msg := "ERROR: Skipping corrupt PDF " ++ renderPath info.pdf_path
      (log_error env.nowFile env.nowMsg msg none, Outcome.failure msg)
    | .error (.other e) =>
      let msg := "ERROR: Unexpected failure in " ++ renderPath info.pdf_path ++ ": " ++ e
      (log_error env.nowFile env.nowMsg msg none, Outcome.failure msg)

/-- The `run_dirs` discovery: entries of `parent_dir` that are directories
whose name starts with the fixed prefix, sorted (sorting the joined paths,
which share the parent, orders by entry name). -/
def run_dirs (entries : List DirEntry) : List DirEntry :=
  sortBy (fun a b => lexLe a.name.data b.name.data)
    (entries.filter (fun e => e.isDir && pyStartsWith e.name "COIN_NPS_50k_replay_"))

/-- The `pdf_files` discovery: for each run directory in order, the paths
of its entries ending in `.pdf`. -/
def pdf_files (parent : Path) (entries : List DirEntry) : List Path :=
  (run_dirs entries).flatMap (fun e =>
    (e.contents.filter (fun f => pyEndsWith f ".pdf")).map
      (fun f => joinPath (joinPath parent e.name) f))

/-- Embeds `batch_check_pdfs`: derive the timestamped log name, discover
PDFs, run `check_pdf` on each in the pool, open the log with `"w"`
(creating it), then append one `log_error` entry per truthy result. -/
def batch_check_pdfs (env : CheckEnv) (parent : Path) (entries : List DirEntry) :
    List Effect :=
  let log_filename := "error_log_" ++ env.nowFile ++ ".txt"
  let pdfs := pdf_files parent entries
  let results := pdfs.map (check_pdf env.parse)
  [Effect.printed ("🔍 Checking " ++ toString pdfs.length ++ " PDFs for errors...")]
  ++ [Effect.createFile log_filename]
  ++ ((results.filterMap id).filter (fun s => s != "")).flatMap
       (fun msg => log_error env.nowFile env.nowMsg msg (some log_filename))
  ++ [Effect.printed "✅ PDF check complete!",
      Effect.printed ("📄 Check " ++ log_filename ++ " for any corrupted PDFs."),
      Effect.printed ("⏳ Total Execution Time: " ++ env.elapsed ++ " seconds")]

/-- Embeds `batch_convert`: pre-flight the disk-space check (exit code 1,
nothing dispatched, when it fails), else read the filename list, discover
PDFs, dispatch one `convert_pdf` work item per PDF, and finish with the
summary prints and exit code 0.  Returns (exit code, dispatched work
items, effects). -/
def batch_convert (env : Env) (disk_usage : String → DiskUsage) (fs : FS)
    (parent : Path) (entries : List DirEntry) (file_lines : List String)
    (dpi : Nat) : Nat × List PdfInfo × List Effect :=
  if check_disk_space disk_usage 10 then
    let filenames := read_filenames file_lines
    let pdfs := pdf_files parent entries
    let infos := pdfs.map (fun p => PdfInfo.mk p filenames dpi)
    (0, infos,
      [Effect.printed ("📄 Processing " ++ toString pdfs.length ++ " PDFs at " ++
        toString dpi ++ " DPI...")]
      ++ infos.flatMap (fun i => (convert_pdf env fs i).1)
      ++ [Effect.printed "✅ Conversion complete!",
          Effect.printed ("⏳ Total Execution Time: " ++ env.elapsed ++ " seconds")])
  else
    (1, [], [Effect.printed "⚠️ Not enough space! Exiting to prevent failures."])

/-! Concrete fixtures used by witness and counterexample theorems. -/

/-- A convert-pipeline environment whose parse always succeeds with 0 pages
and whose saves always succeed. -/
def demoEnv : Env :=
  ⟨fun _ _ => Except.ok 0, fun _ => none,
   "2026-10-12_00-00-00", "2026-10-12 00:00:00", "0.10"⟩

/-- A convert-pipeline environment whose parse always raises
`PDFPageCountError("boom")`. -/
def demoEnvErr : Env :=
  ⟨fun _ _ => Except.error (PdfException.pageCount "boom"), fun _ => none,
   "2026-10-12_00-00-00", "2026-10-12 00:00:00", "0.10"⟩

/-- A 3-page document environment with all saves succeeding. -/
def demoEnv3 : Env :=
  ⟨fun _ _ => Except.ok 3, fun _ => none,
   "2026-10-12_00-00-00", "2026-10-12 00:00:00", "0.10"⟩

/-- A check-pipeline environment whose parse always succeeds. -/
def demoCheckEnv : CheckEnv :=
  ⟨fun _ _ => Except.ok 1, "2026-10-12_00-00-00", "2026-10-12 00:00:00", "1.00"⟩

/-- A check-pipeline environment whose parse always raises
`PDFPageCountError("boom")`. -/
def demoCheckEnvErr : CheckEnv :=
  ⟨fun _ _ => Except.error (PdfException.pageCount "boom"),
   "2026-10-12_00-00-00", "2026-10-12 00:00:00", "1.00"⟩

/-- The spec's concrete scenario: `COIN_NPS_50k_replay_0001/a.pdf` with
filename list `["p1.png", "p2.png"]` at 300 dpi. -/
def demoInfo : PdfInfo :=
  ⟨["COIN_NPS_50k_replay_0001", "a.pdf"], ["p1.png", "p2.png"], 300⟩

/-- A filesystem on which both listed outputs of `demoInfo` exist but the
fallback-named third page does not. -/
def demoFS : FS :=
  [["COIN_NPS_50k_replay_0001", "p1.png"], ["COIN_NPS_50k_replay_0001", "p2.png"]]

/-- `demoFS` plus the fallback-named third page. -/
def demoFSFull : FS :=
  ["COIN_NPS_50k_replay_0001", "default_page_3.png"] :: demoFS

/-! Helper lemmas shared by the claim theorems. -/

/-- `List.all` only looks at the members of the list. -/
theorem all_congr_of_mem {α} (p q : α → Bool) :
    ∀ l : List α, (∀ x ∈ l, p x = q x) → l.all p = l.all q
  | [], _ => rfl
  | a :: as, h => by
    simp only [List.all_cons]
    rw [h a (by simp), all_congr_of_mem p q as (fun x hx => h x (by simp [hx]))]

/-- When every save succeeds, the save loop writes exactly one image per
page index, in order, under the positional-or-default name. -/
theorem saveLoop_all_ok (save : Path → Option String) (dir : Path)
    (fns : List String) :
    ∀ is : List Nat, (∀ i ∈ is, save (joinPath dir (outputName fns i)) = none) →
      saveLoop save dir fns is
        = (is.map (fun i => Effect.saveImage (joinPath dir (outputName fns i))), none)
  | [], _ => rfl
  | i :: rest, h => by
    have hi : save (joinPath dir (outputName fns i)) = none := h i (by simp)
    have ih := saveLoop_all_ok save dir fns rest (fun j hj => h j (by simp [hj]))
    simp [saveLoop, hi, ih]

/-! Claim theorems. -/

/-- C1.  If every expected output filename of a document already exists in
the document's directory, `convert_pdf` reports Skipped, performs no
filesystem write, and its result does not depend on the parse/save
environment at all (so no rasterization is attempted and re-invocations
are idempotent). -/
theorem convert_pdf_skip_idempotent (env env2 : Env) (fs : FS) (info : PdfInfo)
    (h : info.filenames.all
      (fun name => pathExists fs (joinPath (dirname info.pdf_path) name)) = true) :
    (convert_pdf env fs info).2 = Outcome.skipped
    ∧ (∀ e ∈ (convert_pdf env fs info).1, e.isWrite = false)
    ∧ convert_pdf env fs info = convert_pdf env2 fs info := by
  unfold convert_pdf
  simp [h, Effect.isWrite]

/-- Witness for C1: the spec's concrete document with both listed outputs
on disk is Skipped, nothing is written, and the result is the same under
an environment whose parse would fail. -/
theorem convert_pdf_skip_idempotent_witness :
    (convert_pdf demoEnv demoFS demoInfo).2 = Outcome.skipped
    ∧ (∀ e ∈ (convert_pdf demoEnv demoFS demoInfo).1, e.isWrite = false)
    ∧ convert_pdf demoEnv demoFS demoInfo = convert_pdf demoEnvErr demoFS demoInfo :=
  convert_pdf_skip_idempotent demoEnv demoEnvErr demoFS demoInfo (by decide)

/-- C7.  `convert_pdf` is total: every run ends in Skipped, Success, or a
Failure whose reason mentions the document's path — a raised parse or
save exception is converted at the worker boundary into a Failure outcome
and never propagates to the coordinator. -/
theorem convert_pdf_isolates_failures (env : Env) (fs : FS) (info : PdfInfo) :
    (convert_pdf env fs info).2 = Outcome.skipped
    ∨ (convert_pdf env fs info).2 = Outcome.success
    ∨ ∃ r a b, (convert_pdf env fs info).2 = Outcome.failure r
        ∧ r = a ++ renderPath info.pdf_path ++ b := by
  unfold convert_pdf
  by_cases h : (info.filenames.all
      fun name => pathExists fs (joinPath (dirname info.pdf_path) name)) = true
  · simp [h]
  · simp only [Bool.not_eq_true] at h
    cases hp : env.parse info.pdf_path info.dpi with
    | ok n =>
      cases hs : (saveLoop env.save (dirname info.pdf_path) info.filenames
          (List.range n)).2 with
      | none => simp [h, hp, hs]
      | some e =>
        refine Or.inr (Or.inr
          ⟨"ERROR: Unexpected failure in " ++ renderPath info.pdf_path ++ ": " ++ e,
           "ERROR: Unexpected failure in ", ": " ++ e, ?_, by simp [String.append_assoc]⟩)
        simp [h, hp, hs]
    | error ex =>
      cases ex with
      | pageCount e =>
        refine Or.inr (Or.inr
          ⟨"ERROR: Skipping corrupt PDF " ++ renderPath info.pdf_path,
           "ERROR: Skipping corrupt PDF ", "", ?_, by simp⟩)
        simp [h, hp]
      | other e =>
        refine Or.inr (Or.inr
          ⟨"ERROR: Unexpected failure in " ++ renderPath info.pdf_path ++ ": " ++ e,
           "ERROR: Unexpected failure in ", ": " ++ e, ?_, by simp [String.append_assoc]⟩)
        simp [h, hp]

/-- C8.  A filename-list file containing only blank lines reads back as
the empty list, and with an empty filename list the skip predicate is
vacuously true: every document is Skipped and nothing is ever written. -/
theorem empty_filename_list_skips_everything :
    (∀ lines : List String, (∀ l ∈ lines, pyStrip l = "") → read_filenames lines = [])
    ∧ (∀ (env : Env) (fs : FS) (p : Path) (dpi : Nat),
        (convert_pdf env fs (PdfInfo.mk p [] dpi)).2 = Outcome.skipped
        ∧ ∀ e ∈ (convert_pdf env fs (PdfInfo.mk p [] dpi)).1, e.isWrite = false) := by
  constructor
  · intro lines h
    induction lines with
    | nil => rfl
    | cons l ls ih =>
      have h1 : pyStrip l = "" := h l (by simp)
      have h2 := ih (fun x hx => h x (by simp [hx]))
      simp only [read_filenames, List.map_cons, List.filter_cons] at h2 ⊢
      simp [h1, h2]
  · intro env fs p dpi
    unfold convert_pdf
    simp [Effect.isWrite]

/-- Witness for C8: three blank lines read back as the empty list, and a
document with the empty filename list is Skipped even under a failing
parse environment. -/
theorem empty_filename_list_skips_everything_witness :
    read_filenames ["", "  ", "\t"] = []
    ∧ (convert_pdf demoEnvErr [] (PdfInfo.mk ["d", "a.pdf"] [] 300)).2 = Outcome.skipped :=
  ⟨empty_filename_list_skips_everything.1 ["", "  ", "\t"] (by decide),
   (empty_filename_list_skips_everything.2 demoEnvErr [] ["d", "a.pdf"] 300).1⟩

/-- C9.  The skip predicate consults only the listed filenames: two
filesystems that agree on the existence of the listed filenames in the
document's directory give identical `convert_pdf` behaviour, whatever
either says about the fallback `default_page_<n>.png` names. -/
theorem convert_pdf_skip_tests_only_listed (env : Env) (fs fs2 : FS) (info : PdfInfo)
    (h : ∀ name ∈ info.filenames,
      pathExists fs (joinPath (dirname info.pdf_path) name)
        = pathExists fs2 (joinPath (dirname info.pdf_path) name)) :
    convert_pdf env fs info = convert_pdf env fs2 info := by
  simp only [convert_pdf]
  rw [all_congr_of_mem _ _ info.filenames h]

/-- Witness for C9: the spec's document with both listed outputs on disk
behaves identically whether or not `default_page_3.png` exists, is
Skipped, and `default_page_3.png` is indeed absent from the smaller
filesystem (so missing default-named pages are never regenerated). -/
theorem convert_pdf_skip_tests_only_listed_witness :
    convert_pdf demoEnv3 demoFS demoInfo = convert_pdf demoEnv3 demoFSFull demoInfo
    ∧ (convert_pdf demoEnv3 demoFS demoInfo).2 = Outcome.skipped
    ∧ pathExists demoFS
        (joinPath (dirname demoInfo.pdf_path) "default_page_3.png") = false :=
  ⟨convert_pdf_skip_tests_only_listed demoEnv3 demoFS demoFSFull demoInfo (by decide),
   by decide, by decide⟩

/-- C3.  `check_pdf` is total: when the low-dpi page-count parse succeeds
it returns `none` ("no error"), and on any parse failure — either
exception class — it returns a descriptive error string that mentions the
document's path; no exception escapes its boundary. -/
theorem check_pdf_never_raises (parse : Path → Nat → Except PdfException Nat)
    (p : Path) :
    ((∃ n, parse p 10 = Except.ok n) → check_pdf parse p = none)
    ∧ ((∀ n, parse p 10 ≠ Except.ok n) →
        ∃ s a b, check_pdf parse p = some s ∧ s = a ++ renderPath p ++ b) := by
  constructor
  · rintro ⟨n, hn⟩
    simp [check_pdf, hn]
  · intro h
    cases hp : parse p 10 with
    | ok n => exact absurd hp (h n)
    | error ex =>
      cases ex with
      | pageCount e =>
        exact ⟨"ERROR: Unable to process " ++ renderPath p ++
            ". PDF might be corrupted. Skipping.\n" ++ e ++ "\n",
          "ERROR: Unable to process ",
          ". PDF might be corrupted. Skipping.\n" ++ e ++ "\n",
          by simp [check_pdf, hp], by simp [String.append_assoc]⟩
      | other e =>
        exact ⟨"ERROR: Unexpected failure while processing " ++ renderPath p ++
            ". Skipping.\n" ++ e ++ "\n",
          "ERROR: Unexpected failure while processing ",
          ". Skipping.\n" ++ e ++ "\n",
          by simp [check_pdf, hp], by simp [String.append_assoc]⟩

/-- Witness for C3: a succeeding parse yields `none`, and a parse raising
`PDFPageCountError("boom")` yields an error string mentioning the path. -/
theorem check_pdf_never_raises_witness :
    check_pdf (fun _ _ => Except.ok 3) ["d", "a.pdf"] = none
    ∧ ∃ s a b, check_pdf (fun _ _ => Except.error (PdfException.pageCount "boom"))
        ["d", "a.pdf"] = some s ∧ s = a ++ renderPath ["d", "a.pdf"] ++ b :=
  ⟨(check_pdf_never_raises (fun _ _ => Except.ok 3) ["d", "a.pdf"]).1 ⟨3, rfl⟩,
   (check_pdf_never_raises (fun _ _ => Except.error (PdfException.pageCount "boom"))
      ["d", "a.pdf"]).2 (fun _ h => Except.noConfusion h)⟩

/-- C5.  When a document is actually converted (not skipped), its parse
yields `n` pages, every save succeeds, and the filename list has length
`L < n`, the image files written are exactly one per page in page order,
all inside the document's own directory, named by the `i`-th supplied
filename for `i < L` and by `default_page_<i+1>.png` (1-indexed page
number) for `i ≥ L`. -/
theorem convert_pdf_output_naming (env : Env) (fs : FS) (info : PdfInfo) (n : Nat)
    (hskip : info.filenames.all
      (fun name => pathExists fs (joinPath (dirname info.pdf_path) name)) = false)
    (hparse : env.parse info.pdf_path info.dpi = Except.ok n)
    (hsave : ∀ i < n,
      env.save (joinPath (dirname info.pdf_path) (outputName info.filenames i)) = none)
    (hlen : info.filenames.length < n) :
    (convert_pdf env fs info).2 = Outcome.success
    ∧ (convert_pdf env fs info).1.filter Effect.isSave
      = (List.range n).map (fun i => Effect.saveImage (joinPath (dirname info.pdf_path)
          (if i < info.filenames.length then info.filenames.getD i ""
           else "default_page_" ++ toString (i + 1) ++ ".png"))) := by
  have hsl := saveLoop_all_ok env.save (dirname info.pdf_path) info.filenames
    (List.range n) (fun i hi => hsave i (List.mem_range.mp hi))
  unfold convert_pdf
  simp [hskip, hparse, hsl, List.filter_append, List.filter_map, Effect.isSave,
    outputName, Function.comp]
  congr 1
  simp [List.filter_eq_self, Effect.isSave, Function.comp]

/-- Witness for C5: the spec's scenario — `COIN_NPS_50k_replay_0001/a.pdf`
with 3 pages and filename list `["p1.png", "p2.png"]` on an empty
filesystem — succeeds and writes exactly `p1.png`, `p2.png`,
`default_page_3.png` into the document's directory. -/
theorem convert_pdf_output_naming_witness :
    (convert_pdf demoEnv3 [] demoInfo).2 = Outcome.success
    ∧ (convert_pdf demoEnv3 [] demoInfo).1.filter Effect.isSave
      = (List.range 3).map (fun i => Effect.saveImage (joinPath (dirname demoInfo.pdf_path)
          (if i < demoInfo.filenames.length then demoInfo.filenames.getD i ""
           else "default_page_" ++ toString (i + 1) ++ ".png"))) :=
  convert_pdf_output_naming demoEnv3 [] demoInfo 3 (by decide) rfl
    (fun _ _ => rfl) (by decide)

/-- C4.  If free space at `/` is below 10 GB, `batch_convert` exits with
status 1, dispatches no work item and performs no filesystem write;
otherwise it exits with status 0 and its output ends with the completion
summary and the elapsed-time print. -/
theorem batch_convert_disk_gate (env : Env) (du : String → DiskUsage) (fs : FS)
    (parent : Path) (entries : List DirEntry) (lines : List String) (dpi : Nat) :
    ((du "/").free < 10 * 1024 ^ 3 →
      (batch_convert env du fs parent entries lines dpi).1 = 1
      ∧ (batch_convert env du fs parent entries lines dpi).2.1 = []
      ∧ ∀ e ∈ (batch_convert env du fs parent entries lines dpi).2.2,
          e.isWrite = false)
    ∧ (10 * 1024 ^ 3 ≤ (du "/").free →
      (batch_convert env du fs parent entries lines dpi).1 = 0
      ∧ Effect.printed "✅ Conversion complete!"
          ∈ (batch_convert env du fs parent entries lines dpi).2.2
      ∧ Effect.printed ("⏳ Total Execution Time: " ++ env.elapsed ++ " seconds")
          ∈ (batch_convert env du fs parent entries lines dpi).2.2) := by
  constructor
  · intro h
    have hc : check_disk_space du 10 = false := by
      simp only [check_disk_space, decide_eq_false_iff_not, not_le]
      exact h
    simp [batch_convert, hc, Effect.isWrite]
  · intro h
    have hc : check_disk_space du 10 = true := by
      simp only [check_disk_space, decide_eq_true_eq]
      exact h
    simp [batch_convert, hc]

/-- Witness for C4: with 0 bytes free the run exits 1 with nothing
dispatched; with 1 TB free it exits 0 and prints the summary lines. -/
theorem batch_convert_disk_gate_witness :
    ((batch_convert demoEnv (fun _ => ⟨0, 0, 0⟩) [] ["data"] [] [] 300).1 = 1
      ∧ (batch_convert demoEnv (fun _ => ⟨0, 0, 0⟩) [] ["data"] [] [] 300).2.1 = []
      ∧ ∀ e ∈ (batch_convert demoEnv (fun _ => ⟨0, 0, 0⟩) [] ["data"] [] [] 300).2.2,
          e.isWrite = false)
    ∧ ((batch_convert demoEnv (fun _ => ⟨10 ^ 12, 0, 10 ^ 12⟩) [] ["data"] [] [] 300).1 = 0
      ∧ Effect.printed "✅ Conversion complete!"
          ∈ (batch_convert demoEnv (fun _ => ⟨10 ^ 12, 0, 10 ^ 12⟩) [] ["data"] [] [] 300).2.2
      ∧ Effect.printed ("⏳ Total Execution Time: " ++ demoEnv.elapsed ++ " seconds")
          ∈ (batch_convert demoEnv (fun _ => ⟨10 ^ 12, 0, 10 ^ 12⟩) [] ["data"] [] [] 300).2.2) :=
  ⟨(batch_convert_disk_gate demoEnv (fun _ => ⟨0, 0, 0⟩) [] ["data"] [] [] 300).1
      (by norm_num),
   (batch_convert_disk_gate demoEnv (fun _ => ⟨10 ^ 12, 0, 10 ^ 12⟩) [] ["data"] [] [] 300).2
      (by norm_num)⟩

/-- C10.  The pre-flight disk check queries only the root filesystem: two
`shutil.disk_usage` oracles with the same free space at `/` give the same
check result and the same `batch_convert` exit code, for any parent
directories and inputs; and the result is exactly the comparison of free
space at `/` against the fixed 10 GB threshold. -/
theorem check_disk_space_root_only (du du2 : String → DiskUsage) (env : Env)
    (fs : FS) (parent parent2 : Path) (entries entries2 : List DirEntry)
    (lines lines2 : List String) (dpi dpi2 : Nat)
    (h : (du "/").free = (du2 "/").free) :
    check_disk_space du 10 = check_disk_space du2 10
    ∧ (check_disk_space du 10 = true ↔ 10 * 1024 ^ 3 ≤ (du "/").free)
    ∧ (batch_convert env du fs parent entries lines dpi).1
        = (batch_convert env du2 fs parent2 entries2 lines2 dpi2).1 := by
  have hcheck : check_disk_space du 10 = check_disk_space du2 10 := by
    simp [check_disk_space, h]
  refine ⟨hcheck, by simp [check_disk_space], ?_⟩
  cases hc : check_disk_space du 10 with
  | false => simp [batch_convert, hc, hcheck ▸ hc]
  | true => simp [batch_convert, hc, hcheck ▸ hc]

/-- Witness for C10: an oracle reporting 5 free bytes everywhere and one
reporting 5 free bytes with different totals agree on the check and the
exit code, and the check fails as `5 < 10 GB`. -/
theorem check_disk_space_root_only_witness :
    check_disk_space (fun _ => ⟨5, 5, 5⟩) 10 = check_disk_space (fun _ => ⟨999, 7, 5⟩) 10
    ∧ (check_disk_space (fun _ => ⟨5, 5, 5⟩) 10 = true
        ↔ 10 * 1024 ^ 3 ≤ ((fun (_ : String) => (⟨5, 5, 5⟩ : DiskUsage)) "/").free)
    ∧ (batch_convert demoEnv (fun _ => ⟨5, 5, 5⟩) [] ["data"] [] [] 300).1
        = (batch_convert demoEnv (fun _ => ⟨999, 7, 5⟩) [] ["other"] [] [] 600).1 :=
  check_disk_space_root_only (fun _ => ⟨5, 5, 5⟩) (fun _ => ⟨999, 7, 5⟩) demoEnv
    [] ["data"] ["other"] [] [] [] [] 300 600 rfl

/-- Helper: every effect of the coordinator's error-writing loop is a
print or an append to the given log file. -/
theorem flatMap_log_error_effects (nf nm lf : String) (msgs : List String) :
    ∀ e ∈ msgs.flatMap (fun g => log_error nf nm g (some lf)),
      (∃ s, e = Effect.printed s) ∨ ∃ m, e = Effect.appendLog lf m := by
  intro e he
  simp only [List.mem_flatMap, log_error] at he
  rcases he with ⟨g, _, he⟩
  simp only [List.mem_cons, List.mem_singleton, List.not_mem_nil, or_false] at he
  rcases he with he | he
  · exact Or.inl ⟨_, he⟩
  · exact Or.inr ⟨_, he⟩

/-- Helper: the coordinator's error-writing loop creates no file. -/
theorem filter_isCreate_flatMap (nf nm lf : String) (msgs : List String) :
    (msgs.flatMap (fun g => log_error nf nm g (some lf))).filter Effect.isCreate
      = [] := by
  induction msgs with
  | nil => rfl
  | cons g gs ih =>
    simp only [List.flatMap_cons, List.filter_append, ih, List.append_nil]
    rfl

/-- Helper: every effect of `batch_check_pdfs` is a print, the creation of
the single timestamp-named log file, or an append to that same file. -/
theorem batch_check_effect_shapes (env : CheckEnv) (parent : Path)
    (entries : List DirEntry) (e : Effect)
    (he : e ∈ batch_check_pdfs env parent entries) :
    (∃ s, e = Effect.printed s)
    ∨ e = Effect.createFile ("error_log_" ++ env.nowFile ++ ".txt")
    ∨ ∃ m, e = Effect.appendLog ("error_log_" ++ env.nowFile ++ ".txt") m := by
  simp only [batch_check_pdfs, List.append_assoc, List.mem_append, List.mem_cons,
    List.mem_singleton, List.not_mem_nil, or_false] at he
  rcases he with he | he | he | he | he | he
  · exact Or.inl ⟨_, he⟩
  · exact Or.inr (Or.inl he)
  · rcases flatMap_log_error_effects env.nowFile env.nowMsg _ _ e he with h | h
    · exact Or.inl h
    · exact Or.inr (Or.inr h)
  · exact Or.inl ⟨_, he⟩
  · exact Or.inl ⟨_, he⟩
  · exact Or.inl ⟨_, he⟩

/-- C6 counterexample: even on a parent directory with no matching
subdirectory (zero PDFs), the check pipeline performs a filesystem
mutation — it creates the (empty) timestamp-named error log file — so
check-only mode does not leave the filesystem untouched. -/
theorem batch_check_creates_log_file :
    ∃ e ∈ batch_check_pdfs demoCheckEnv ["data"] [], e.isWrite = true :=
  ⟨Effect.createFile "error_log_2026-10-12_00-00-00.txt", by decide, by decide⟩

/-- C6 (amended).  The only filesystem mutations of the check pipeline
concern the timestamp-named error log file (its creation and its
appended lines); no input document or output image is ever created,
modified or deleted. -/
theorem batch_check_mutates_only_log (env : CheckEnv) (parent : Path)
    (entries : List DirEntry) (e : Effect)
    (he : e ∈ batch_check_pdfs env parent entries) (hw : e.isWrite = true) :
    e = Effect.createFile ("error_log_" ++ env.nowFile ++ ".txt")
    ∨ ∃ m, e = Effect.appendLog ("error_log_" ++ env.nowFile ++ ".txt") m := by
  rcases batch_check_effect_shapes env parent entries e he with ⟨s, rfl⟩ | h | h
  · simp [Effect.isWrite] at hw
  · exact Or.inl h
  · exact Or.inr h

/-- Witness for amended C6: in a concrete zero-PDF run, the one mutation
found in the effect list is the creation of the timestamped log file. -/
theorem batch_check_mutates_only_log_witness :
    Effect.createFile "error_log_2026-10-12_00-00-00.txt"
        = Effect.createFile ("error_log_" ++ demoCheckEnv.nowFile ++ ".txt")
    ∨ ∃ m, Effect.createFile "error_log_2026-10-12_00-00-00.txt"
        = Effect.appendLog ("error_log_" ++ demoCheckEnv.nowFile ++ ".txt") m :=
  batch_check_mutates_only_log demoCheckEnv ["data"] []
    (Effect.createFile "error_log_2026-10-12_00-00-00.txt") (by decide) (by decide)

/-- C2 counterexample: in the convert pipeline the worker itself writes
the error log — on a corrupt document, `convert_pdf` appends a
timestamped line to an error-log file from inside the worker, so it is
not the case that workers never write the error log in either pipeline. -/
theorem convert_worker_writes_error_log :
    ∃ f m, Effect.appendLog f m
      ∈ (convert_pdf demoEnvErr [] (PdfInfo.mk ["d", "a.pdf"] ["p1.png"] 300)).1 :=
  ⟨"error_log_2026-10-12_00-00-00.txt",
   "[2026-10-12 00:00:00] ERROR: Skipping corrupt PDF d/a.pdf\n", by decide⟩

/-- C2 (amended).  In the check pipeline the error log is a single
timestamp-named file created exactly once per invocation, and every log
append of that pipeline targets it; its workers (`check_pdf`) return
outcome values and perform no write.  (In the convert pipeline, by
contrast, workers call `log_error` directly.) -/
theorem batch_check_single_coordinator_log (env : CheckEnv) (parent : Path)
    (entries : List DirEntry) :
    (batch_check_pdfs env parent entries).filter Effect.isCreate
      = [Effect.createFile ("error_log_" ++ env.nowFile ++ ".txt")]
    ∧ ∀ f m, Effect.appendLog f m ∈ batch_check_pdfs env parent entries →
        f = "error_log_" ++ env.nowFile ++ ".txt" := by
  constructor
  · simp only [batch_check_pdfs, List.filter_append, filter_isCreate_flatMap]
    simp [Effect.isCreate]
  · intro f m hm
    rcases batch_check_effect_shapes env parent entries _ hm with ⟨s, h⟩ | h | ⟨m2, h⟩
    · exact absurd h (by simp)
    · exact absurd h (by simp)
    · exact (Effect.appendLog.injEq f m _ m2 ▸ h).1

/-- Witness for amended C2: a concrete check run over one corrupt PDF
creates exactly the timestamped log file, and the append observed in its
effect list targets that same file. -/
theorem batch_check_single_coordinator_log_witness :
    (batch_check_pdfs demoCheckEnvErr ["data"]
        [⟨"COIN_NPS_50k_replay_0001", true, ["a.pdf"]⟩]).filter Effect.isCreate
      = [Effect.createFile ("error_log_" ++ demoCheckEnvErr.nowFile ++ ".txt")]
    ∧ "error_log_2026-10-12_00-00-00.txt"
        = "error_log_" ++ demoCheckEnvErr.nowFile ++ ".txt" :=
  ⟨(batch_check_single_coordinator_log demoCheckEnvErr ["data"]
      [⟨"COIN_NPS_50k_replay_0001", true, ["a.pdf"]⟩]).1,
   (batch_check_single_coordinator_log demoCheckEnvErr ["data"]
      [⟨"COIN_NPS_50k_replay_0001", true, ["a.pdf"]⟩]).2
     "error_log_2026-10-12_00-00-00.txt"
     "[2026-10-12 00:00:00] ERROR: Unable to process data/COIN_NPS_50k_replay_0001/a.pdf. PDF might be corrupted. Skipping.\nboom\n\n"
     (by decide)⟩

end FastPNG
